import Mathlib

/-!
Verification of the anomaly-classification-and-tiered-ingestion pipeline.

The development shallowly embeds the Python sources:
* `ml-models/anomaly_detector.py`   (class `AnomalyDetector`)
* `final_working_pipeline.py`       (class `FinalWorkingPipeline`)
* `dashboard/resilient_pipeline.py` (class `ResilientPipeline`)
* `dashboard/working_pipeline.py`   (class `WorkingPipeline`)

Conventions: Python floats are idealised as `Rat`; ML predictions are the
integers the code uses (`-1` = ANOMALOUS, `0` = NORMAL); code that can raise
is embedded in `Except`, and a `try/except` wrapper is a `match` on the body.
The sklearn estimators (`StandardScaler`, `IsolationForest`) are external
collaborators: their fitted parameters are opaque data whose exact values no
claim depends on, but their fit/transform control flow (rejecting an empty
matrix, rejecting use before fit) is modelled explicitly.
-/

namespace AnomalyDetector

/-- Sensor reading record as produced by `generate_sensor_reading` /
`generate_training_data` (a Python dict; only the fields the embedded code
reads are kept; timestamps are abstract naturals). -/
structure Reading where
  sensor_id : String
  timestamp : Nat
  temperature : Rat
  humidity : Rat
  actual_anomaly : Bool
  severity : String
deriving DecidableEq, Repr

/-- Feature vector: ordered triple of rationals, as built by
`extract_features`. -/
abbrev Feat := Rat × Rat × Rat

/-- Single-record body of `AnomalyDetector.extract_features`: temperature,
humidity, and `temperature / humidity if humidity > 0 else 0`. -/
def feature1 (record : Reading) : Feat :=
  (record.temperature, record.humidity,
   if record.humidity > 0 then record.temperature / record.humidity else 0)

/-- Embeds `AnomalyDetector.extract_features` (anomaly_detector.py lines
30-39): builds one feature triple per record. -/
def extract_features (data : List Reading) : List Feat :=
  data.map feature1

/-- Errors of the embedded detector: `invalidInput` models the ValueError
sklearn raises when fitting an empty feature matrix (the spec's
`InvalidInputError`), `notFitted` models sklearn's NotFittedError when
transforming/predicting with an unfitted estimator. -/
inductive DetError where
  | invalidInput : DetError
  | notFitted : DetError
deriving DecidableEq, Repr

/-- Fitted `StandardScaler` parameters: a per-feature center and scale, with
`transform` standardising componentwise. -/
structure FittedScaler where
  mean : Feat
  scale : Feat
deriving DecidableEq, Repr

/-- Componentwise standardisation `(x - mean) / scale`, the transform a
fitted `StandardScaler` applies. -/
def FittedScaler.transform1 (s : FittedScaler) (v : Feat) : Feat :=
  ((v.1 - s.mean.1) / s.scale.1,
   (v.2.1 - s.mean.2.1) / s.scale.2.1,
   (v.2.2 - s.mean.2.2) / s.scale.2.2)

/-- Fitted `IsolationForest`: an opaque deterministic decision function on
feature vectors returning `-1` (outlier) or `1` (inlier). The tree-ensemble
internals are external library code out of scope of every claim. -/
structure Forest where
  decision : Feat → Int

/-- Componentwise mean of a feature matrix (used by the modelled scaler
fit). -/
def featMean (features : List Feat) : Feat :=
  let n : Rat := features.length
  ((features.map (fun v => v.1)).sum / n,
   (features.map (fun v => v.2.1)).sum / n,
   (features.map (fun v => v.2.2)).sum / n)

/-- Modelled from the spec: `StandardScaler.fit_transform`. Fits per-feature
centering/scaling parameters and returns the standardised matrix; raises on
an empty matrix (sklearn rejects zero samples), which the spec names
`InvalidInputError`. The true sklearn scale is the square root of the
per-feature variance, irrational in general and inspected by no claim, so
the modelled fit records the exact mean and unit scale. -/
def scaler_fit_transform (features : List Feat) :
    Except DetError (FittedScaler × List Feat) :=
  if features.isEmpty then .error .invalidInput
  else
    let s : FittedScaler := ⟨featMean features, (1, 1, 1)⟩
    .ok (s, features.map s.transform1)

/-- Modelled from the spec: `IsolationForest.fit`. Rejects an empty matrix;
otherwise produces a fitted forest. The fitted decision function is a
randomized tree ensemble whose value no claim depends on; the model records
an inlier-everywhere function. -/
def forest_fit (features : List Feat) : Except DetError Forest :=
  if features.isEmpty then .error .invalidInput
  else .ok ⟨fun _ => 1⟩

/-- Applies `scaler.transform`: raises NotFittedError if the scaler was
never fitted, otherwise standardises every row. -/
def scaler_transform (scaler : Option FittedScaler) (features : List Feat) :
    Except DetError (List Feat) :=
  match scaler with
  | none => .error .notFitted
  | some s => .ok (features.map s.transform1)

/-- Applies `model.predict`: raises NotFittedError if the forest was never
fitted, otherwise scores every row. -/
def forest_scores (model : Option Forest) (features : List Feat) :
    Except DetError (List Int) :=
  match model with
  | none => .error .notFitted
  | some f => .ok (features.map f.decision)

/-- State of an `AnomalyDetector` instance: the `model` and `scaler`
attributes (`none` = constructed but never fitted) and the `is_trained`
flag. -/
structure DetectorState where
  model : Option Forest
  scaler : Option FittedScaler
  is_trained : Bool

/-- Embeds `AnomalyDetector.__init__`: fresh unfitted estimators,
`is_trained = False`. -/
def initState : DetectorState :=
  { model := none, scaler := none, is_trained := false }

/-- Embeds `AnomalyDetector.predict` (anomaly_detector.py lines 20-28): if
untrained, return `[0] * len(data)`; otherwise extract features, apply the
fitted scaler, score with the forest, and map raw scores to `-1`/`0`. -/
def predict (st : DetectorState) (data : List Reading) :
    Except DetError (List Int) :=
  if st.is_trained = false then
    .ok (List.replicate data.length 0)
  else do
    let features := extract_features data
    let scaled ← scaler_transform st.scaler features
    let preds ← forest_scores st.model scaled
    pure (preds.map (fun p => if p = -1 then -1 else 0))

/-- Embeds `AnomalyDetector.train` (anomaly_detector.py lines 12-18):
extract features, `scaler.fit_transform`, `model.fit`, set
`is_trained = True`. An error from a fit propagates to the caller and the
trained state is not produced. -/
def train (st : DetectorState) (data : List Reading) :
    Except DetError DetectorState := do
  let features := extract_features data
  let fitted ← scaler_fit_transform features
  let forest ← forest_fit fitted.2
  pure { st with
         model := some forest, scaler := some fitted.1, is_trained := true }

/-- Persisted model blob written by `save_model`: pickle of
`{'model': self.model, 'scaler': self.scaler}` — and nothing else. -/
structure ModelBlob where
  model : Option Forest
  scaler : Option FittedScaler

/-- Embeds `AnomalyDetector.save_model` (lines 41-45): pickles the `model`
and `scaler` attributes (pickling is modelled as exact). -/
def save_model (st : DetectorState) : ModelBlob :=
  { model := st.model, scaler := st.scaler }

/-- Embeds `AnomalyDetector.load_model` (lines 47-52): restores `model` and
`scaler` from the blob and sets `is_trained = True` unconditionally. -/
def load_model (st : DetectorState) (blob : ModelBlob) : DetectorState :=
  { st with model := blob.model, scaler := blob.scaler, is_trained := true }

/-- Sample reading used to instantiate witness theorems. -/
def sampleReading : Reading :=
  { sensor_id := "sensor_001", timestamp := 0, temperature := 22,
    humidity := 55, actual_anomaly := false, severity := "LOW" }

/-- Sample trained detector state used to instantiate witness theorems. -/
def sampleTrained : DetectorState :=
  { model := some ⟨fun v => if v.1 > 3 then -1 else 1⟩,
    scaler := some ⟨(20, 50, 1), (1, 1, 1)⟩,
    is_trained := true }

/-- Reading with negative humidity, exhibiting the `humidity > 0` guard of
`extract_features`. -/
def negHumReading : Reading :=
  { sensor_id := "sensor_002", timestamp := 0, temperature := 1,
    humidity := -1, actual_anomaly := false, severity := "LOW" }

end AnomalyDetector

open AnomalyDetector


namespace FinalWorking

/-- Backend fault injection for one reading's dispatch: whether the
PostgreSQL operations raise, and whether the file writes raise. -/
structure SinkEnv where
  dbFails : Bool
  fileFails : Bool
deriving DecidableEq, Repr

/-- Backend exception absorbed by a sink wrapper's `except` clause. -/
inductive SinkError where
  | backend : SinkError
deriving DecidableEq, Repr

/-- Committed effect of one `save_to_database` call: whether the
`sensor_readings` row and the `anomaly_alerts` row were inserted (both in
one committed transaction). -/
structure DbEffect where
  readingInserted : Bool
  alertInserted : Bool
deriving DecidableEq, Repr

/-- Effect of one `save_to_files` call: which tier files were written
(bronze always, then gold or silver by prediction) and the
`stats['files_created']` increment performed inside the try block. -/
structure FileEffect where
  bronze : Bool
  silver : Bool
  gold : Bool
  files_created : Nat
deriving DecidableEq, Repr

/-- Try-block body of `save_to_database` (final_working_pipeline.py lines
150-184): insert the reading row, insert an alert row iff the prediction
is `-1`, commit. A backend fault raises before anything is committed. -/
def db_write_body (_reading : Reading) (prediction : Int) (env : SinkEnv) :
    Except SinkError DbEffect :=
  if env.dbFails then .error .backend
  else .ok { readingInserted := true, alertInserted := prediction == -1 }

/-- Embeds `save_to_database` (lines 150-187): the try/except wrapper
around `db_write_body`; every backend error is caught and converted into
the returned `False`. -/
def save_to_database (reading : Reading) (prediction : Int) (env : SinkEnv) :
    Bool × DbEffect :=
  match db_write_body reading prediction env with
  | .ok eff => (true, eff)
  | .error _ => (false, ⟨false, false⟩)

/-- Try-block body of `save_to_files` (lines 189-223): write the bronze
file always, then the gold file when the prediction is `-1` and otherwise
the silver file, then increment `stats['files_created']`. -/
def file_write_body (_reading : Reading) (prediction : Int) (env : SinkEnv) :
    Except SinkError FileEffect :=
  if env.fileFails then .error .backend
  else .ok { bronze := true,
             silver := !(prediction == -1),
             gold := prediction == -1,
             files_created := 1 }

/-- Embeds `save_to_files` (lines 189-227): the try/except wrapper around
`file_write_body`; every filesystem error is caught and converted into the
returned `False`. -/
def save_to_files (reading : Reading) (prediction : Int) (env : SinkEnv) :
    Bool × FileEffect :=
  match file_write_body reading prediction env with
  | .ok eff => (true, eff)
  | .error _ => (false, ⟨false, false, false, 0⟩)

/-- Counters of `self.stats` read by the claims (`start_time` elided). -/
structure Stats where
  total_readings : Nat
  anomalies_detected : Nat
  files_created : Nat
deriving DecidableEq, Repr

/-- Stats dictionary as initialised in `__init__`. -/
def initStats : Stats := ⟨0, 0, 0⟩

/-- Outcomes and effects of dispatching one reading to both sinks. -/
structure ReadingOutcome where
  db_ok : Bool
  file_ok : Bool
  db_effect : DbEffect
  file_effect : FileEffect
deriving DecidableEq, Repr

/-- Per-reading body of the `run_pipeline` loop (lines 272-287): call
`save_to_database`, call `save_to_files`, increment `total_readings`
unconditionally, increment `anomalies_detected` iff the prediction is
`-1`. The `files_created` increment happens inside `save_to_files`. -/
def process_reading (stats : Stats) (reading : Reading) (prediction : Int)
    (env : SinkEnv) : Stats × ReadingOutcome :=
  let db := save_to_database reading prediction env
  let file := save_to_files reading prediction env
  let stats1 := { stats with
                  files_created := stats.files_created + file.2.files_created }
  let stats2 := { stats1 with total_readings := stats1.total_readings + 1 }
  let stats3 :=
    if prediction == -1 then
      { stats2 with anomalies_detected := stats2.anomalies_detected + 1 }
    else stats2
  (stats3, ⟨db.1, file.1, db.2, file.2⟩)

/-- One batch of the loop: for each sensor id, generate a reading, score it
(`classify r` models `self.detector.predict([r])[0]`), and dispatch it. -/
def process_cycle (sensors : List String) (gen : String → Reading)
    (classify : Reading → Int) (env : String → SinkEnv) (stats : Stats) :
    Stats :=
  sensors.foldl
    (fun s sid => (process_reading s (gen sid) (classify (gen sid)) (env sid)).1)
    stats

/-- Loop of `run_pipeline` unrolled for a given number of cycles, starting
at cycle index `c`: cycle `c` is processed, then the remaining cycles. -/
def run_aux (sensors : List String) (gen : Nat → String → Reading)
    (classify : Reading → Int) (env : Nat → String → SinkEnv) :
    Nat → Nat → Stats → Stats
  | _, 0, stats => stats
  | c, n + 1, stats =>
      run_aux sensors gen classify env (c + 1) n
        (process_cycle sensors (gen c) classify (env c) stats)

/-- Embeds `run_pipeline` truncated to `cycles` complete cycles over the
fixed sensor set, from the freshly initialised stats. -/
def run_pipeline (sensors : List String) (gen : Nat → String → Reading)
    (classify : Reading → Int) (env : Nat → String → SinkEnv)
    (cycles : Nat) : Stats :=
  run_aux sensors gen classify env 0 cycles initStats

/-- Readings dispatched in cycles `c, c+1, ...` (n cycles), in dispatch
order. -/
def dispatched_aux (sensors : List String) (gen : Nat → String → Reading) :
    Nat → Nat → List Reading
  | _, 0 => []
  | c, n + 1 => sensors.map (gen c) ++ dispatched_aux sensors gen (c + 1) n

/-- All readings dispatched in the first `cycles` cycles. -/
def dispatched (sensors : List String) (gen : Nat → String → Reading)
    (cycles : Nat) : List Reading :=
  dispatched_aux sensors gen 0 cycles

end FinalWorking

/-- Startup environment: whether the relational store is reachable when
the pipeline constructor runs. -/
structure DbEnv where
  reachable : Bool
deriving DecidableEq, Repr

/-- Fatal process termination, the `exit(1)` call. -/
inductive StartupExit where
  | exitOne : StartupExit
deriving DecidableEq, Repr

namespace FinalWorking

/-- Embeds `FinalWorkingPipeline.setup_database` (final_working_pipeline.py
lines 62-110): connect and create tables; any exception is caught by the
handler which prints the error and calls `exit(1)`. -/
def setup_database (env : DbEnv) : Except StartupExit Unit :=
  if env.reachable then .ok () else .error .exitOne

/-- Embeds the startup sequence of `FinalWorkingPipeline.__init__` followed
by `run_pipeline` reachability: the constructor calls `setup_database`, so
when the relational store is unreachable the process exits before the
cycle loop can start; otherwise the loop starts from `initStats`. -/
def init_pipeline (env : DbEnv) : Except StartupExit Stats :=
  match setup_database env with
  | .error e => .error e
  | .ok _ => .ok initStats

end FinalWorking

namespace Resilient

/-- Counters of `self.stats` in resilient_pipeline.py read by the claims
(`start_time` elided). -/
structure RStats where
  total_readings : Nat
  anomalies_detected : Nat
  db_saves : Nat
  errors : Nat
deriving DecidableEq, Repr

/-- Embeds `ResilientPipeline.save_to_database` (resilient_pipeline.py
lines 206-246): returns False immediately when the database is not
connected, touching no counter; on a backend exception the handler
increments `stats['errors']` and returns False; on success increments
`stats['db_saves']` and returns True. -/
def save_to_database (st : RStats) (db_connected : Bool) (_reading : Reading)
    (_prediction : Int) (env : FinalWorking.SinkEnv) : Bool × RStats :=
  if !db_connected then (false, st)
  else if env.dbFails then (false, { st with errors := st.errors + 1 })
  else (true, { st with db_saves := st.db_saves + 1 })

/-- Embeds `ResilientPipeline.save_to_local_files` (lines 248-286): a
filesystem error is caught, logged, and returns False without touching any
counter; success returns True. -/
def save_to_local_files (st : RStats) (_reading : Reading)
    (_prediction : Int) (env : FinalWorking.SinkEnv) : Bool × RStats :=
  if env.fileFails then (false, st) else (true, st)

/-- Per-reading body of the resilient `run_pipeline` loop (lines 354-377):
both sink saves, then the unconditional `total_readings` increment and the
conditional `anomalies_detected` increment. -/
def process_reading (st : RStats) (db_connected : Bool) (reading : Reading)
    (prediction : Int) (env : FinalWorking.SinkEnv) : RStats :=
  let db := save_to_database st db_connected reading prediction env
  let file := save_to_local_files db.2 reading prediction env
  let st2 := { file.2 with total_readings := file.2.total_readings + 1 }
  if prediction == -1 then
    { st2 with anomalies_detected := st2.anomalies_detected + 1 }
  else st2

end Resilient

namespace WorkingP

/-- Embeds `WorkingPipeline.setup_database` (working_pipeline.py lines
76-118): on any exception the handler prints the error and sets
`self.conn = None` — the process does not exit. -/
def setup_database (env : DbEnv) : Option Unit :=
  if env.reachable then some () else none

/-- State of a `WorkingPipeline` instance: the database connection (None
when startup failed) and the loop-local reading/anomaly counters. -/
structure WState where
  conn : Option Unit
  reading_count : Nat
  anomaly_count : Nat
deriving DecidableEq, Repr

/-- Embeds `WorkingPipeline.__init__`: `setup_database` stores its result
in `self.conn` and construction always succeeds. -/
def init_pipeline (env : DbEnv) : WState :=
  { conn := setup_database env, reading_count := 0, anomaly_count := 0 }

/-- Embeds `WorkingPipeline.save_to_database` (lines 185-226): returns
immediately, inserting nothing, when `self.conn` is None; otherwise
inserts the reading row and possibly the alert row, catching backend
errors. -/
def save_to_database (st : WState) (_reading : Reading) (prediction : Int)
    (env : FinalWorking.SinkEnv) : FinalWorking.DbEffect :=
  match st.conn with
  | none => ⟨false, false⟩
  | some _ =>
      if env.dbFails then ⟨false, false⟩
      else ⟨true, prediction == -1⟩

/-- Per-reading body of `WorkingPipeline.run_pipeline` (lines 228-256):
save, then increment `reading_count` unconditionally and `anomaly_count`
on a `-1` prediction. -/
def process_reading (st : WState) (reading : Reading) (prediction : Int)
    (env : FinalWorking.SinkEnv) : WState × FinalWorking.DbEffect :=
  let dbe := save_to_database st reading prediction env
  let st2 := { st with reading_count := st.reading_count + 1 }
  let st3 :=
    if prediction == -1 then
      { st2 with anomaly_count := st2.anomaly_count + 1 }
    else st2
  (st3, dbe)

/-- One batch of the `run_pipeline` while loop, which is entered
unconditionally — nothing guards it on `self.conn`. -/
def run_cycle (st : WState) (sensors : List String) (gen : String → Reading)
    (classify : Reading → Int) (env : String → FinalWorking.SinkEnv) :
    WState :=
  sensors.foldl
    (fun s sid => (process_reading s (gen sid) (classify (gen sid)) (env sid)).1)
    st


end WorkingP


/-- Fixed sensor set of the pipelines. -/
def sensors0 : List String :=
  ["sensor_001", "sensor_002", "sensor_003", "sensor_004", "sensor_005"]

/-- Concrete reading generator used to instantiate counterexamples and
witnesses. -/
def gen0 : String → Reading :=
  fun sid => { sampleReading with sensor_id := sid }

/-- Concrete all-NORMAL classifier used to instantiate counterexamples and
witnesses. -/
def classify0 : Reading → Int := fun _ => 0

/-- Healthy sink environment for every sensor. -/
def env0 : String → FinalWorking.SinkEnv := fun _ => ⟨false, false⟩


/-- C4: predict on an untrained model returns a sequence of the same length
as the input whose every element is NORMAL (`0`), for any input length,
and never raises. -/
theorem C4_predict_untrained (st : DetectorState) (data : List Reading)
    (h : st.is_trained = false) :
    ∃ out, predict st data = Except.ok out ∧
      out.length = data.length ∧ ∀ c ∈ out, c = 0 := by
  refine ⟨List.replicate data.length 0, ?_, by simp, ?_⟩
  · simp [predict, h]
  · intro c hc
    exact List.eq_of_mem_replicate hc

/-- Witness for C4 at the freshly constructed detector and a one-element
input. -/
theorem C4_predict_untrained_witness :
    initState.is_trained = false ∧
    ∃ out, predict initState [sampleReading] = Except.ok out ∧
      out.length = [sampleReading].length ∧ ∀ c ∈ out, c = 0 :=
  ⟨rfl, C4_predict_untrained initState [sampleReading] rfl⟩

/-- C5 counterexample: at temperature 1 and humidity -1 the code's third
feature is `0` although humidity is nonzero and `temperature / humidity`
is nonzero, so the third component is not `0 exactly when humidity == 0`:
the guard in the source is `humidity > 0`, not `humidity == 0`. -/
theorem C5_counterexample :
    extract_features [negHumReading] = [(1, -1, 0)] ∧
    negHumReading.humidity ≠ 0 ∧
    negHumReading.temperature / negHumReading.humidity ≠ 0 := by
  refine ⟨?_, by norm_num [negHumReading], by norm_num [negHumReading]⟩
  simp [extract_features, feature1, negHumReading]

/-- C5 amended: extract returns the ordered triple
`(temperature, humidity, temperature/humidity if humidity > 0 else 0)` for
every record, preserving length; the third component is `0` exactly when
`humidity ≤ 0` or `temperature = 0`; the function is pure and total. -/
theorem C5_extract_features_amended (data : List Reading) (r : Reading) :
    (extract_features data).length = data.length ∧
    extract_features [r] = [feature1 r] ∧
    (feature1 r).1 = r.temperature ∧
    (feature1 r).2.1 = r.humidity ∧
    (feature1 r).2.2 =
      (if 0 < r.humidity then r.temperature / r.humidity else 0) ∧
    ((feature1 r).2.2 = 0 ↔ r.humidity ≤ 0 ∨ r.temperature = 0) := by
  refine ⟨by simp [extract_features], rfl, rfl, rfl, rfl, ?_⟩
  by_cases h : 0 < r.humidity
  · simp only [feature1, if_pos h, div_eq_zero_iff]
    constructor
    · rintro (ht | hh)
      · exact Or.inr ht
      · exact absurd hh (ne_of_gt h)
    · rintro (hle | ht)
      · exact absurd h (not_lt.mpr hle)
      · exact Or.inl ht
  · simp [feature1, h, le_of_not_lt h]

/-- C3: for a trained model, save followed by load round-trips exactly:
predict after restoring the blob into any detector instance equals predict
on the original trained state, for every input sequence (the embedding is
deterministic, matching the fixed random seed). -/
theorem C3_save_load_roundtrip (st old : DetectorState)
    (h : st.is_trained = true) (X : List Reading) :
    predict (load_model old (save_model st)) X = predict st X := by
  obtain ⟨m, s, t⟩ := st
  simp only at h
  subst h
  rfl

/-- Witness for C3 at a concrete trained state, loading into a fresh
detector. -/
theorem C3_save_load_roundtrip_witness :
    sampleTrained.is_trained = true ∧
    predict (load_model initState (save_model sampleTrained)) [sampleReading] =
      predict sampleTrained [sampleReading] :=
  ⟨rfl, C3_save_load_roundtrip sampleTrained initState rfl [sampleReading]⟩

/-- C10: load sets `is_trained` unconditionally rather than restoring it
from the blob, and save does not persist the flag (blobs of states
differing only in `is_trained` are equal); hence loading a blob saved from
an untrained model reports trained, and its predict takes the trained path
— which fails on the unfitted scaler instead of returning the untrained
safe default. -/
theorem C10_load_unconditionally_trained :
    (∀ (st : DetectorState) (blob : ModelBlob),
        (load_model st blob).is_trained = true) ∧
    (∀ (st : DetectorState) (b : Bool),
        save_model { st with is_trained := b } = save_model st) ∧
    (load_model initState (save_model initState)).is_trained = true ∧
    (∀ data : List Reading,
        predict (load_model initState (save_model initState)) data =
          Except.error DetError.notFitted) :=
  ⟨fun _ _ => rfl, fun _ _ => rfl, rfl, fun _ => rfl⟩

/-- C8: train fails with the invalid-input error on an empty sequence of
readings; on any non-empty sequence it succeeds and sets `is_trained` to
true. -/
theorem C8_train_empty_invalid (st : DetectorState) (data : List Reading) :
    (data = [] → train st data = Except.error DetError.invalidInput) ∧
    (data ≠ [] → ∃ st2, train st data = Except.ok st2 ∧
      st2.is_trained = true) := by
  constructor
  · rintro rfl
    rfl
  · intro hne
    match data with
    | [] => exact absurd rfl hne
    | d :: ds => exact ⟨_, rfl, rfl⟩

/-- Witness for C8: empty input fails, a one-element input trains. -/
theorem C8_train_empty_invalid_witness :
    train initState [] = Except.error DetError.invalidInput ∧
    ([sampleReading] ≠ ([] : List Reading)) ∧
    ∃ st2, train initState [sampleReading] = Except.ok st2 ∧
      st2.is_trained = true :=
  ⟨(C8_train_empty_invalid initState []).1 rfl, by simp,
   (C8_train_empty_invalid initState [sampleReading]).2 (by simp)⟩

namespace FinalWorking

/-- Totals of one dispatched reading: `total_readings` increments by one
whatever the sink outcomes are. -/
theorem process_reading_total (stats : Stats) (r : Reading) (p : Int)
    (env : SinkEnv) :
    ((process_reading stats r p env).1).total_readings =
      stats.total_readings + 1 := by
  by_cases hp : p = -1 <;> simp [process_reading, hp]

/-- Anomaly counter of one dispatched reading: increments iff the
prediction is `-1`. -/
theorem process_reading_anomalies (stats : Stats) (r : Reading) (p : Int)
    (env : SinkEnv) :
    ((process_reading stats r p env).1).anomalies_detected =
      stats.anomalies_detected + (if p == -1 then 1 else 0) := by
  by_cases hp : p = -1 <;> simp [process_reading, hp]

/-- Cycle-level totals: a batch adds one reading per sensor. -/
theorem process_cycle_total (sensors : List String) (gen : String → Reading)
    (classify : Reading → Int) (env : String → SinkEnv) (stats : Stats) :
    (process_cycle sensors gen classify env stats).total_readings =
      stats.total_readings + sensors.length := by
  induction sensors generalizing stats with
  | nil => simp [process_cycle]
  | cons sid rest ih =>
      rw [process_cycle, List.foldl_cons]
      rw [show List.foldl _ _ rest = process_cycle rest gen classify env _ from rfl]
      rw [ih, process_reading_total]
      simp [Nat.add_assoc, Nat.add_comm 1]

/-- Cycle-level anomaly counter: a batch adds the number of its readings
scored `-1`. -/
theorem process_cycle_anomalies (sensors : List String)
    (gen : String → Reading) (classify : Reading → Int)
    (env : String → SinkEnv) (stats : Stats) :
    (process_cycle sensors gen classify env stats).anomalies_detected =
      stats.anomalies_detected +
        (sensors.map gen).countP (fun r => classify r == -1) := by
  induction sensors generalizing stats with
  | nil => simp [process_cycle]
  | cons sid rest ih =>
      rw [process_cycle, List.foldl_cons]
      rw [show List.foldl _ _ rest = process_cycle rest gen classify env _ from rfl]
      rw [ih, process_reading_anomalies]
      by_cases hp : classify (gen sid) = -1 <;>
        (simp [hp, List.countP_cons]; try omega)

/-- Counters accumulated by the unrolled loop. -/
theorem run_aux_counters (sensors : List String)
    (gen : Nat → String → Reading) (classify : Reading → Int)
    (env : Nat → String → SinkEnv) :
    ∀ (n c : Nat) (stats : Stats),
      (run_aux sensors gen classify env c n stats).total_readings =
        stats.total_readings + n * sensors.length ∧
      (run_aux sensors gen classify env c n stats).anomalies_detected =
        stats.anomalies_detected +
          (dispatched_aux sensors gen c n).countP (fun r => classify r == -1)
  | 0, c, stats => by simp [run_aux, dispatched_aux]
  | n + 1, c, stats => by
      have ih := run_aux_counters sensors gen classify env n (c + 1)
        (process_cycle sensors (gen c) classify (env c) stats)
      rw [run_aux, dispatched_aux]
      refine ⟨?_, ?_⟩
      · rw [ih.1, process_cycle_total]
        ring
      · rw [ih.2, process_cycle_anomalies, List.countP_append]
        ring


end FinalWorking

namespace WorkingP
/-- Reading counter of a batch: one increment per sensor, for any
connection state. -/
theorem run_cycle_count (st : WState) (sensors : List String)
    (gen : String → Reading) (classify : Reading → Int)
    (env : String → FinalWorking.SinkEnv) :
    (run_cycle st sensors gen classify env).reading_count =
      st.reading_count + sensors.length := by
  induction sensors generalizing st with
  | nil => simp [run_cycle]
  | cons sid rest ih =>
      rw [run_cycle, List.foldl_cons]
      rw [show List.foldl _ _ rest = run_cycle _ rest gen classify env from rfl]
      rw [ih]
      by_cases hp : classify (gen sid) = -1 <;>
        (simp [process_reading, hp]; omega)


end WorkingP

/-- C1: for every dispatched reading with both sinks healthy, the bronze
tier receives a write; exactly one of silver and gold receives a write —
silver when the classification is NORMAL (prediction not `-1`) and gold
when it is ANOMALOUS (prediction `-1`); and an alert row is inserted if
and only if gold is selected. -/
theorem C1_tier_routing (r : Reading) (p : Int) (env : FinalWorking.SinkEnv)
    (hd : env.dbFails = false) (hf : env.fileFails = false) :
    (FinalWorking.save_to_files r p env).2.bronze = true ∧
    ((FinalWorking.save_to_files r p env).2.gold = true ↔ p = -1) ∧
    ((FinalWorking.save_to_files r p env).2.silver = true ↔ p ≠ -1) ∧
    ((FinalWorking.save_to_files r p env).2.silver &&
      (FinalWorking.save_to_files r p env).2.gold) = false ∧
    ((FinalWorking.save_to_files r p env).2.silver ||
      (FinalWorking.save_to_files r p env).2.gold) = true ∧
    ((FinalWorking.save_to_database r p env).2.alertInserted = true ↔
      (FinalWorking.save_to_files r p env).2.gold = true) := by
  obtain ⟨a, b⟩ := env
  simp only at hd hf
  subst hd hf
  by_cases hp : p = -1 <;>
    simp [FinalWorking.save_to_files, FinalWorking.save_to_database,
      FinalWorking.file_write_body, FinalWorking.db_write_body, hp]

/-- Witness for C1 at a healthy environment and an anomalous prediction. -/
theorem C1_tier_routing_witness :
    (FinalWorking.SinkEnv.mk false false).dbFails = false ∧
    (FinalWorking.SinkEnv.mk false false).fileFails = false ∧
    ((FinalWorking.save_to_files sampleReading (-1) ⟨false, false⟩).2.bronze = true ∧
     ((FinalWorking.save_to_files sampleReading (-1) ⟨false, false⟩).2.gold = true ↔ (-1 : Int) = -1) ∧
     ((FinalWorking.save_to_files sampleReading (-1) ⟨false, false⟩).2.silver = true ↔ (-1 : Int) ≠ -1) ∧
     ((FinalWorking.save_to_files sampleReading (-1) ⟨false, false⟩).2.silver &&
       (FinalWorking.save_to_files sampleReading (-1) ⟨false, false⟩).2.gold) = false ∧
     ((FinalWorking.save_to_files sampleReading (-1) ⟨false, false⟩).2.silver ||
       (FinalWorking.save_to_files sampleReading (-1) ⟨false, false⟩).2.gold) = true ∧
     ((FinalWorking.save_to_database sampleReading (-1) ⟨false, false⟩).2.alertInserted = true ↔
       (FinalWorking.save_to_files sampleReading (-1) ⟨false, false⟩).2.gold = true)) :=
  ⟨rfl, rfl, C1_tier_routing sampleReading (-1) ⟨false, false⟩ rfl rfl⟩

/-- C2: after N complete cycles over a fixed sensor set S,
`total_readings` equals `N * |S|` — incremented exactly once per reading
whatever the sink outcomes — and `anomalies_detected` equals the number of
dispatched readings classified ANOMALOUS (scored `-1`). -/
theorem C2_stats_counters (sensors : List String)
    (gen : Nat → String → Reading) (classify : Reading → Int)
    (env : Nat → String → FinalWorking.SinkEnv) (cycles : Nat) :
    (FinalWorking.run_pipeline sensors gen classify env cycles).total_readings =
      cycles * sensors.length ∧
    (FinalWorking.run_pipeline sensors gen classify env cycles).anomalies_detected =
      (FinalWorking.dispatched sensors gen cycles).countP
        (fun r => classify r == -1) := by
  have h := FinalWorking.run_aux_counters sensors gen classify env cycles 0
    FinalWorking.initStats
  rw [FinalWorking.run_pipeline, FinalWorking.dispatched]
  exact ⟨by rw [h.1]; simp [FinalWorking.initStats],
         by rw [h.2]; simp [FinalWorking.initStats]⟩

/-- C6: for every dispatched reading the write to each sink is attempted:
each wrapper is total (a backend error is caught and converted into a
failed outcome — the wrapper returns `False` exactly when its body
raised), and each sink's result is independent of the other backend's
fault state, so one sink's failure never prevents or skips the other
sink's write for the same reading. -/
theorem C6_sink_isolation (r : Reading) (p : Int) (a b : Bool)
    (stats : FinalWorking.Stats) :
    (FinalWorking.save_to_database r p ⟨a, b⟩).1 = !a ∧
    (FinalWorking.save_to_files r p ⟨a, b⟩).1 = !b ∧
    FinalWorking.save_to_files r p ⟨a, b⟩ =
      FinalWorking.save_to_files r p ⟨!a, b⟩ ∧
    FinalWorking.save_to_database r p ⟨a, b⟩ =
      FinalWorking.save_to_database r p ⟨a, !b⟩ ∧
    (FinalWorking.process_reading stats r p ⟨a, b⟩).2.db_ok = !a ∧
    (FinalWorking.process_reading stats r p ⟨a, b⟩).2.file_ok = !b ∧
    (FinalWorking.db_write_body r p ⟨a, b⟩ =
        Except.error FinalWorking.SinkError.backend ↔
      (FinalWorking.save_to_database r p ⟨a, b⟩).1 = false) ∧
    (FinalWorking.file_write_body r p ⟨a, b⟩ =
        Except.error FinalWorking.SinkError.backend ↔
      (FinalWorking.save_to_files r p ⟨a, b⟩).1 = false) := by
  cases a <;> cases b <;>
    simp [FinalWorking.save_to_database, FinalWorking.save_to_files,
      FinalWorking.db_write_body, FinalWorking.file_write_body,
      FinalWorking.process_reading]

/-- C7 counterexample: a reading whose local-file write fails while the
database write succeeds has a failed sink outcome, yet the global error
counter does not increment — in the source only the database exception
handler touches `stats['errors']`. -/
theorem C7_counterexample :
    (Resilient.save_to_database ⟨0, 0, 0, 0⟩ true sampleReading 0
        ⟨false, true⟩).1 = true ∧
    (Resilient.save_to_local_files ⟨0, 0, 0, 0⟩ sampleReading 0
        ⟨false, true⟩).1 = false ∧
    (Resilient.process_reading ⟨0, 0, 0, 0⟩ true sampleReading 0
        ⟨false, true⟩).errors = 0 :=
  ⟨rfl, rfl, rfl⟩

/-- C7 amended: the global error counter increments exactly once per
reading when the database sink is connected and its write raises; it does
not increment for local-file sink failures, nor when the database sink is
disconnected, regardless of the other sink's outcome. -/
theorem C7_amended_error_counter (st : Resilient.RStats) (c : Bool)
    (r : Reading) (p : Int) (env : FinalWorking.SinkEnv) :
    (Resilient.process_reading st c r p env).errors =
      st.errors + (if c && env.dbFails then 1 else 0) := by
  obtain ⟨a, b⟩ := env
  cases c <;> cases a <;> cases b <;>
    by_cases hp : p = -1 <;>
      simp [Resilient.process_reading, Resilient.save_to_database,
        Resilient.save_to_local_files, hp]

/-- C9 counterexample: in working_pipeline.py an unreachable relational
store at startup leaves `conn = None` without exiting, and the dispatch
loop still runs — a full batch over the five sensors is processed — so the
process does run the dispatch loop without a reachable relational store. -/
theorem C9_counterexample :
    (WorkingP.init_pipeline ⟨false⟩).conn = none ∧
    (WorkingP.run_cycle (WorkingP.init_pipeline ⟨false⟩) sensors0 gen0
        classify0 env0).reading_count = 5 ∧
    WorkingP.save_to_database (WorkingP.init_pipeline ⟨false⟩)
        (gen0 "sensor_001") 0 ⟨false, false⟩ =
      ⟨false, false⟩ :=
  ⟨rfl, rfl, rfl⟩

/-- C9 amended: in final_working_pipeline.py an unreachable relational
store at startup makes the process exit fatally before the cycle loop; in
dashboard/working_pipeline.py the same failure is absorbed — the
connection is set to None, the cycle loop still runs one increment per
sensor, and every database write is skipped. -/
theorem C9_amended_startup (env : DbEnv) (st : WorkingP.WState)
    (r : Reading) (p : Int) (se : FinalWorking.SinkEnv)
    (sensors : List String) (gen : String → Reading)
    (classify : Reading → Int) (senv : String → FinalWorking.SinkEnv)
    (h : env.reachable = false) (h2 : st.conn = none) :
    FinalWorking.init_pipeline env = Except.error StartupExit.exitOne ∧
    (WorkingP.init_pipeline env).conn = none ∧
    WorkingP.save_to_database st r p se = ⟨false, false⟩ ∧
    (WorkingP.run_cycle st sensors gen classify senv).reading_count =
      st.reading_count + sensors.length := by
  refine ⟨?_, ?_, ?_, WorkingP.run_cycle_count st sensors gen classify senv⟩
  · simp [FinalWorking.init_pipeline, FinalWorking.setup_database, h]
  · simp [WorkingP.init_pipeline, WorkingP.setup_database, h]
  · rw [WorkingP.save_to_database, h2]

/-- Witness for C9 amended at a concretely failed startup. -/
theorem C9_amended_startup_witness :
    (⟨false⟩ : DbEnv).reachable = false ∧
    (WorkingP.init_pipeline ⟨false⟩).conn = none ∧
    (FinalWorking.init_pipeline ⟨false⟩ = Except.error StartupExit.exitOne ∧
     (WorkingP.init_pipeline ⟨false⟩).conn = none ∧
     WorkingP.save_to_database (WorkingP.init_pipeline ⟨false⟩) sampleReading
         0 ⟨false, false⟩ = ⟨false, false⟩ ∧
     (WorkingP.run_cycle (WorkingP.init_pipeline ⟨false⟩) sensors0 gen0
         classify0 env0).reading_count =
       (WorkingP.init_pipeline ⟨false⟩).reading_count + sensors0.length) :=
  ⟨rfl, rfl,
   C9_amended_startup ⟨false⟩ (WorkingP.init_pipeline ⟨false⟩) sampleReading
     0 ⟨false, false⟩ sensors0 gen0 classify0 env0 rfl rfl⟩
